import Mathlib

/-!
Verification of the USEOAI Performance Analyzer (dynamic/static fallback)
and of the frontend URL validator.

The repository ships the design documents for the analyzer
(`DYNAMIC_PERFORMANCE_ANALYSIS.md`, `PROJECT_SUMMARY.md`) together with the
specification; the Python module `services/seo_analyzer.py` they describe is
not part of the source tree here, so the analyzer is modelled from the
specification's words, faithfully to the documents.  The frontend validator
`isValidUrl` is embedded directly from the Vue source
(`src/unnamed/part_001`).
-/

namespace USEOAI

/-- Modelled from the spec: resource-type labels used by the Request
Classifier (§4.4).  Keys of `resourceTypeCounts` are script, image,
stylesheet, font, fetch/xhr and other; the navigation/document request type
is "a distinguished classification used solely to exclude it from resource
counts". -/
inductive ResourceType where
  | script
  | image
  | stylesheet
  | font
  | fetchXhr
  | document
  | other
deriving DecidableEq, Repr

/-- Modelled from the spec: a network request captured by the dynamic path's
observer, carrying the browser-reported declared resource kind (ground truth
in the dynamic path, §4.4). -/
structure CapturedRequest where
  declaredType : String
  url : String
deriving DecidableEq, Repr

/-- Modelled from the spec: a resource-referencing tag extracted by the
static path's HTML parse (§4.3): script tags with a source attribute, link
tags of stylesheet/font relation, image tags (with their deferred-loading
attribute), and inline font references in style content. -/
inductive HtmlTag where
  | scriptSrc (src : String)
  | linkStylesheet (href : String)
  | linkFont (href : String)
  | img (src : String) (lazyAttr : Bool)
  | styleFontRef (url : String)
deriving DecidableEq, Repr

/-- Modelled from the spec: the classifier input, "a captured request or a
parsed resource reference" (§4.4). -/
inductive ClassifierInput where
  | request (r : CapturedRequest)
  | staticRef (t : HtmlTag)
deriving DecidableEq, Repr

/-- Modelled from the spec: `classify(resourceUrlOrRequest) -> ResourceType`
(§4.4).  Classification is by declared resource kind in the dynamic path
(the browser-reported type wins there) and by tag-type heuristic in the
static path; any unrecognized input defaults to `other`, never raising. -/
def classify : ClassifierInput → ResourceType
  | .request r =>
      if r.declaredType = "script" then .script
      else if r.declaredType = "image" then .image
      else if r.declaredType = "stylesheet" then .stylesheet
      else if r.declaredType = "font" then .font
      else if r.declaredType = "fetch" then .fetchXhr
      else if r.declaredType = "xhr" then .fetchXhr
      else if r.declaredType = "document" then .document
      else .other
  | .staticRef t =>
      match t with
      | .scriptSrc _ => .script
      | .linkStylesheet _ => .stylesheet
      | .linkFont _ => .font
      | .img _ _ => .image
      | .styleFontRef _ => .font

/-- The declared-kind strings the classifier recognizes in the dynamic
path; anything else maps to `other`. -/
def recognizedKinds : List String :=
  ["script", "image", "stylesheet", "font", "fetch", "xhr", "document"]

/-- Modelled from the spec: the mapping from resource-type label to count
(§3, `resourceTypeCounts`; keys script, image, stylesheet, font, fetch/xhr,
other — no document key, since navigation/document requests are excluded
from it). -/
structure ResourceTypeCounts where
  script : Nat
  image : Nat
  stylesheet : Nat
  font : Nat
  fetchXhr : Nat
  other : Nat
deriving DecidableEq, Repr

/-- Sum of the `resourceTypeCounts` values. -/
def ResourceTypeCounts.total (c : ResourceTypeCounts) : Nat :=
  c.script + c.image + c.stylesheet + c.font + c.fetchXhr + c.other

/-- Tally a list of classifications into `resourceTypeCounts`; a
`document` classification contributes to no bucket. -/
def tally : List ResourceType → ResourceTypeCounts
  | [] => ⟨0, 0, 0, 0, 0, 0⟩
  | t :: ts =>
      let c := tally ts
      match t with
      | .script => { c with script := c.script + 1 }
      | .image => { c with image := c.image + 1 }
      | .stylesheet => { c with stylesheet := c.stylesheet + 1 }
      | .font => { c with font := c.font + 1 }
      | .fetchXhr => { c with fetchXhr := c.fetchXhr + 1 }
      | .document => c
      | .other => { c with other := c.other + 1 }

/-- Modelled from the spec: the `PerformanceProfile`, the sole entity of the
data model (§3), with the eleven external JSON field names of §6 preserved
verbatim (`resource_types` carried as the typed count mapping). -/
structure PerformanceProfile where
  ttfb_ms : Nat
  resource_count : Nat
  gzip_enabled : Bool
  lazy_loaded_images : Bool
  resource_types : ResourceTypeCounts
  scripts_count : Nat
  images_count : Nat
  stylesheets_count : Nat
  fonts_count : Nat
  fetch_requests_count : Nat
  total_requests : Nat
deriving DecidableEq, Repr

/-- Modelled from the spec: `_get_default_performance_metrics` — the
default/safe profile of §7: all counts zero, `ttfb_ms` at the documented
sentinel 0, `gzip_enabled` false, `lazy_loaded_images` false. -/
def defaultProfile : PerformanceProfile :=
  { ttfb_ms := 0
    resource_count := 0
    gzip_enabled := false
    lazy_loaded_images := false
    resource_types := ⟨0, 0, 0, 0, 0, 0⟩
    scripts_count := 0
    images_count := 0
    stylesheets_count := 0
    fonts_count := 0
    fetch_requests_count := 0
    total_requests := 0 }

/-- A captured request classified as navigation/document. -/
def isDocumentReq (r : CapturedRequest) : Bool :=
  match classify (.request r) with
  | .document => true
  | _ => false

/-- Modelled from the spec: where the dynamic path may throw (§4.2 failure
policy: acquisition, navigation incl. timeout, observation, evaluation). -/
inductive DynFailure where
  | poolAcquisition
  | navigationError
  | navigationTimeout
  | domEvaluation
deriving DecidableEq, Repr

/-- Modelled from the spec: what a successful dynamic run observes — the
captured network requests (observer installed before navigation, so none is
missed), the first-byte time of the main document response, the
content-encoding compression flag, and the DOM lazy-load detection (§4.2). -/
structure DynObservation where
  requests : List CapturedRequest
  ttfbMs : Nat
  gzip : Bool
  lazyDetected : Bool
deriving DecidableEq, Repr

/-- The dynamic environment for one call: either an observation or the
failure the path raised. -/
structure DynWorld where
  outcome : Except DynFailure DynObservation

/-- Aggregates computed by `_process_dynamic_requests`. -/
structure DynRequestStats where
  counts : ResourceTypeCounts
  resourceCount : Nat
  totalRequests : Nat
deriving DecidableEq, Repr

/-- Modelled from the spec: `_process_dynamic_requests` — feeds every
observed request to the classifier, excludes the navigation/document
requests from `resource_count` and from `resource_types`, but includes them
in `total_requests` (§4.2, PROJECT_SUMMARY §3). -/
def processDynamicRequests (reqs : List CapturedRequest) : DynRequestStats :=
  { counts := tally ((reqs.filter (fun r => ! isDocumentReq r)).map
      (fun r => classify (.request r)))
    resourceCount := (reqs.filter (fun r => ! isDocumentReq r)).length
    totalRequests := reqs.length }

/-- Modelled from the spec: `_analyze_performance_dynamic` — builds the
profile of a successful dynamic run from its observation (§4.2). -/
def dynProfile (obs : DynObservation) : PerformanceProfile :=
  { ttfb_ms := obs.ttfbMs
    resource_count := (processDynamicRequests obs.requests).resourceCount
    gzip_enabled := obs.gzip
    lazy_loaded_images := obs.lazyDetected
    resource_types := (processDynamicRequests obs.requests).counts
    scripts_count := (processDynamicRequests obs.requests).counts.script
    images_count := (processDynamicRequests obs.requests).counts.image
    stylesheets_count := (processDynamicRequests obs.requests).counts.stylesheet
    fonts_count := (processDynamicRequests obs.requests).counts.font
    fetch_requests_count := (processDynamicRequests obs.requests).counts.fetchXhr
    total_requests := (processDynamicRequests obs.requests).totalRequests }

/-- The dynamic path over its environment: any failure aborts the path
entirely — no partial profile (§4.2 failure policy). -/
def analyzeDynamic (w : DynWorld) : Except DynFailure PerformanceProfile :=
  match w.outcome with
  | .error f => .error f
  | .ok obs => .ok (dynProfile obs)

/-- Modelled from the spec: where the static path may throw (§4.3 failure
policy: connection error, timeout, non-HTML response, parse error). -/
inductive StaticFailure where
  | connectionError
  | timeout
  | nonHtmlResponse
  | parseError
deriving DecidableEq, Repr

/-- Modelled from the spec: a successful static fetch — first-byte latency,
content-encoding flag, and the resource-referencing tags extracted from the
parsed HTML (§4.3). -/
structure StaticFetch where
  tags : List HtmlTag
  ttfbMs : Nat
  gzip : Bool
deriving DecidableEq, Repr

/-- The static environment for one call. -/
structure StatWorld where
  outcome : Except StaticFailure StaticFetch

/-- An image tag carrying a deferred-loading attribute. -/
def isLazyImg : HtmlTag → Bool
  | .img _ lazyAttr => lazyAttr
  | _ => false

/-- Modelled from the spec: `_analyze_performance_static` — classifies each
extracted reference, detects lazy loading from deferred-loading attributes
on image tags; `total_requests` is only meaningful on the dynamic path and
absence of data is represented by zero (§3, §4.3). -/
def staticCounts (f : StaticFetch) : ResourceTypeCounts :=
  tally (f.tags.map (fun t => classify (.staticRef t)))

/-- Modelled from the spec: builds the static path's profile — each
extracted reference counts as one resource (§3, `resourceCount` is the
number of resource requests attributable to the page). -/
def staticProfile (f : StaticFetch) : PerformanceProfile :=
  { ttfb_ms := f.ttfbMs
    resource_count := f.tags.length
    gzip_enabled := f.gzip
    lazy_loaded_images := f.tags.any isLazyImg
    resource_types := staticCounts f
    scripts_count := (staticCounts f).script
    images_count := (staticCounts f).image
    stylesheets_count := (staticCounts f).stylesheet
    fonts_count := (staticCounts f).font
    fetch_requests_count := (staticCounts f).fetchXhr
    total_requests := 0 }

/-- The static path over its environment. -/
def analyzeStatic (w : StatWorld) : Except StaticFailure PerformanceProfile :=
  match w.outcome with
  | .error f => .error f
  | .ok fetch => .ok (staticProfile fetch)

/-- Modelled from the spec: the up-front URL validation every analysis call
performs — rejects malformed and non-HTTP(S) URLs before any network I/O
(§4.1 step 1, §7 validation error). -/
def validateUrl (url : String) : Bool :=
  List.isPrefixOf "http://".data url.data
    || List.isPrefixOf "https://".data url.data

/-- The only error `analyzePerformance` surfaces to its caller (§7). -/
inductive AnalyzerError where
  | validationError
deriving DecidableEq, Repr

/-- An externally observable I/O action: acquiring a page handle from the
browser pool, or issuing an HTTP GET. -/
inductive TraceEvent where
  | poolAcquire
  | httpGet
deriving DecidableEq, Repr

/-- Modelled from the spec: `_analyze_performance` — validate the URL, try
the dynamic path, fall back to the static path on any dynamic failure, and
substitute the default profile when both paths fail (§4.1; the try/except
structure is quoted verbatim in DYNAMIC_PERFORMANCE_ANALYSIS.md).  The
second component records the I/O actions attempted: a pool acquisition for
the dynamic attempt, an HTTP GET for the static attempt, nothing when
validation rejects the URL. -/
def analyzePerformance (url : String) (dw : DynWorld) (sw : StatWorld) :
    Except AnalyzerError PerformanceProfile × List TraceEvent :=
  if validateUrl url then
    match analyzeDynamic dw with
    | .ok p => (.ok p, [.poolAcquire])
    | .error _ =>
        match analyzeStatic sw with
        | .ok p => (.ok p, [.poolAcquire, .httpGet])
        | .error _ => (.ok defaultProfile, [.poolAcquire, .httpGet])
  else
    (.error .validationError, [])

/-! ### Frontend URL validation (`src/unnamed/part_001`)

`isValidUrl` wraps `new URL(string)` in a try/catch and returns whether the
constructor succeeded.  The WHATWG `URL` constructor is platform library
code, so `urlConstructorAccepts` models its success condition: a string is
accepted when it carries a well-formed scheme (an ASCII letter followed by
letters, digits, `+`, `-` or `.`) terminated by `:`; a special scheme
(http, https, ws, wss, ftp) additionally needs a non-empty host, while
`file:` and every non-special scheme accept any remainder (opaque path). -/

/-- First character a URL scheme may start with. -/
def isSchemeStartChar (c : Char) : Bool :=
  c.isAlpha

/-- Characters a URL scheme may continue with. -/
def isSchemeChar (c : Char) : Bool :=
  c.isAlpha || c.isDigit || c = '+' || c = '-' || c = '.'

/-- The WHATWG special schemes that require an authority with a host
(`file` is special too but allows an empty host). -/
def hostRequiringSchemes : List String :=
  ["http", "https", "ws", "wss", "ftp"]

/-- The authority's host: characters of the remainder, after leading
slashes, up to the first path/query/fragment delimiter. -/
def authorityHost (rest : List Char) : List Char :=
  (rest.dropWhile (fun c => c = '/')).takeWhile
    (fun c => ¬ (c = '/' || c = '?' || c = '#'))

/-- A host the constructor accepts: non-empty and free of spaces. -/
def hostOk (h : List Char) : Bool :=
  ¬ h.isEmpty && h.all (fun c => ¬ (c = ' '))

/-- Model of the WHATWG `URL(string)` constructor's success: returns `true`
exactly when `new URL(string)` would not throw. -/
def urlConstructorAccepts (s : String) : Bool :=
  let cs := s.toList
  let scheme := cs.takeWhile (fun c => ¬ (c = ':'))
  let restWithColon := cs.dropWhile (fun c => ¬ (c = ':'))
  match restWithColon with
  | [] => false
  | _ :: rest =>
      if scheme.isEmpty then false
      else if ¬ (isSchemeStartChar (scheme.headD 'a')
          && scheme.all isSchemeChar) then false
      else if hostRequiringSchemes.contains
          (String.mk (scheme.map Char.toLower)) then
        hostOk (authorityHost rest)
      else true

/-- Embedded from `src/unnamed/part_001` lines 1147..1155: the frontend's
`isValidUrl` — `try { new URL(string); return true } catch (_) { return
false }`. -/
def isValidUrl (s : String) : Bool :=
  if urlConstructorAccepts s then true else false

/-- Embedded from `src/unnamed/part_001` lines 1109..1116 (`validateForm`,
URL field): the only checks applied to the URL before submission — presence
and `isValidUrl`. -/
def urlFieldError (url : String) : Option String :=
  if url = "" then some "La URL es requerida"
  else if ! isValidUrl url then some "Ingresa una URL válida"
  else none

/-! ### Shared lemmas -/

/-- Tallying classifications accounts for every element except the
`document` ones: the bucket sum plus the `document` occurrences is the list
length. -/
theorem tally_total_add_count (ts : List ResourceType) :
    (tally ts).total + ts.count ResourceType.document = ts.length := by
  induction ts with
  | nil => rfl
  | cons t ts ih =>
      cases t <;>
        simp only [tally, ResourceTypeCounts.total, List.count_cons,
          List.length_cons] <;>
        simp only [ResourceTypeCounts.total] at ih <;>
        simp <;> omega

/-- After filtering out the navigation/document requests, no classification
in the remaining list is `document`. -/
theorem count_doc_filtered (reqs : List CapturedRequest) :
    ((reqs.filter (fun r => ! isDocumentReq r)).map
        (fun r => classify (.request r))).count ResourceType.document = 0 := by
  induction reqs with
  | nil => rfl
  | cons r reqs ih =>
      by_cases h : isDocumentReq r = true
      · simp [List.filter_cons, h, ih]
      · have hb : isDocumentReq r = false := by
          cases hb : isDocumentReq r
          · rfl
          · exact absurd hb h
        have hc : classify (.request r) ≠ ResourceType.document := by
          intro hcl
          simp [isDocumentReq, hcl] at hb
        simp [List.filter_cons, hb, List.count_cons, hc, ih]

/-- For a non-`document` type, filtering out the navigation/document
requests does not change its occurrence count among the classifications. -/
theorem count_classify_filter_ne_doc (reqs : List CapturedRequest)
    (t : ResourceType) (ht : t ≠ ResourceType.document) :
    ((reqs.filter (fun r => ! isDocumentReq r)).map
        (fun r => classify (.request r))).count t
      = (reqs.map (fun r => classify (.request r))).count t := by
  induction reqs with
  | nil => rfl
  | cons r reqs ih =>
      by_cases h : isDocumentReq r = true
      · have hc : classify (.request r) = ResourceType.document := by
          revert h
          simp only [isDocumentReq]
          cases classify (.request r) <;> simp
        simp [List.filter_cons, h, List.count_cons, hc, Ne.symm ht, ih]
      · have hb : isDocumentReq r = false := by
          cases hb : isDocumentReq r
          · rfl
          · exact absurd hb h
        simp [List.filter_cons, hb, List.count_cons, ih]

/-- Splitting a request list by the navigation/document predicate preserves
its length. -/
theorem length_filter_add_countP (reqs : List CapturedRequest) :
    (reqs.filter (fun r => ! isDocumentReq r)).length
      + reqs.countP (fun r => isDocumentReq r) = reqs.length := by
  induction reqs with
  | nil => rfl
  | cons r reqs ih =>
      by_cases h : isDocumentReq r = true
      · simp [List.filter_cons, h, List.countP_cons, ih]
        omega
      · have hb : isDocumentReq r = false := by
          cases hb : isDocumentReq r
          · rfl
          · exact absurd hb h
        simp [List.filter_cons, hb, List.countP_cons, ih]
        omega

/-- The `image` bucket of a tally counts the `image` classifications. -/
theorem tally_image (ts : List ResourceType) :
    (tally ts).image = ts.count ResourceType.image := by
  induction ts with
  | nil => rfl
  | cons t ts ih => cases t <;> simp [tally, List.count_cons, ih]

/-- The `font` bucket of a tally counts the `font` classifications. -/
theorem tally_font (ts : List ResourceType) :
    (tally ts).font = ts.count ResourceType.font := by
  induction ts with
  | nil => rfl
  | cons t ts ih => cases t <;> simp [tally, List.count_cons, ih]

/-- The `stylesheet` bucket of a tally counts the `stylesheet`
classifications. -/
theorem tally_stylesheet (ts : List ResourceType) :
    (tally ts).stylesheet = ts.count ResourceType.stylesheet := by
  induction ts with
  | nil => rfl
  | cons t ts ih => cases t <;> simp [tally, List.count_cons, ih]

/-- The static classifier never produces `fetchXhr`, so the static tally's
`fetchXhr` bucket is zero. -/
theorem static_tags_no_fetch (tags : List HtmlTag) :
    (tally (tags.map (fun t => classify (.staticRef t)))).fetchXhr = 0 := by
  induction tags with
  | nil => rfl
  | cons t tags ih => cases t <;> simpa [tally, classify] using ih

/-- The static classifier never produces `document`. -/
theorem static_tags_no_doc (tags : List HtmlTag) :
    (tags.map (fun t => classify (.staticRef t))).count
      ResourceType.document = 0 := by
  induction tags with
  | nil => rfl
  | cons t tags ih => cases t <;> simpa [classify, List.count_cons] using ih

/-- A dynamic profile's `resource_count` is the bucket sum of its
`resource_types`. -/
theorem dynProfile_count_sum (obs : DynObservation) :
    (dynProfile obs).resource_count = (dynProfile obs).resource_types.total := by
  have h := tally_total_add_count
    ((obs.requests.filter (fun r => ! isDocumentReq r)).map
      (fun r => classify (.request r)))
  have h2 := count_doc_filtered obs.requests
  simp only [dynProfile, processDynamicRequests]
  simp only [List.length_map] at h
  omega

/-- A static profile's `resource_count` is the bucket sum of its
`resource_types`. -/
theorem staticProfile_count_sum (f : StaticFetch) :
    (staticProfile f).resource_count
      = (staticProfile f).resource_types.total := by
  have h := tally_total_add_count (f.tags.map (fun t => classify (.staticRef t)))
  have h2 := static_tags_no_doc f.tags
  simp only [staticProfile, staticCounts]
  simp only [List.length_map] at h
  omega

/-- For a valid URL the orchestrator always returns a profile. -/
theorem analyzePerformance_returns (url : String) (dw : DynWorld)
    (sw : StatWorld) (hv : validateUrl url = true) :
    ∃ p : PerformanceProfile, (analyzePerformance url dw sw).1 = .ok p := by
  cases h1 : analyzeDynamic dw with
  | ok p => exact ⟨p, by simp [analyzePerformance, hv, h1]⟩
  | error f =>
      cases h2 : analyzeStatic sw with
      | ok p => exact ⟨p, by simp [analyzePerformance, hv, h1, h2]⟩
      | error g =>
          exact ⟨defaultProfile, by simp [analyzePerformance, hv, h1, h2]⟩

/-! ### Claim theorems -/

/-- C1: for every valid URL on which both the dynamic and the static
analysis path fail, `analyzePerformance` returns (rather than raising) the
default profile, field-for-field: all counts zero, `gzip_enabled` false,
`lazy_loaded_images` false, and `ttfb_ms` at the documented sentinel 0; no
network- or rendering-layer exception escapes to the caller. -/
theorem total_failure_returns_default_profile
    (url : String) (dw : DynWorld) (sw : StatWorld)
    (f : DynFailure) (g : StaticFailure)
    (hv : validateUrl url = true)
    (hd : dw.outcome = .error f) (hs : sw.outcome = .error g) :
    (analyzePerformance url dw sw).1 = .ok defaultProfile
      ∧ defaultProfile.ttfb_ms = 0
      ∧ defaultProfile.resource_count = 0
      ∧ defaultProfile.gzip_enabled = false
      ∧ defaultProfile.lazy_loaded_images = false
      ∧ defaultProfile.resource_types = ⟨0, 0, 0, 0, 0, 0⟩
      ∧ defaultProfile.scripts_count = 0
      ∧ defaultProfile.images_count = 0
      ∧ defaultProfile.stylesheets_count = 0
      ∧ defaultProfile.fonts_count = 0
      ∧ defaultProfile.fetch_requests_count = 0
      ∧ defaultProfile.total_requests = 0 := by
  refine ⟨?_, rfl, rfl, rfl, rfl, rfl, rfl, rfl, rfl, rfl, rfl, rfl⟩
  simp [analyzePerformance, hv, analyzeDynamic, hd, analyzeStatic, hs]

/-- Witness for C1 at a concrete URL and concrete path failures. -/
theorem total_failure_returns_default_profile_witness :
    (analyzePerformance "https://example.com"
        ⟨.error .navigationTimeout⟩ ⟨.error .timeout⟩).1
      = .ok defaultProfile :=
  (total_failure_returns_default_profile "https://example.com"
    ⟨.error .navigationTimeout⟩ ⟨.error .timeout⟩
    .navigationTimeout .timeout (by decide) rfl rfl).1

/-- C2: for every URL on which the dynamic path throws at any point (pool
acquisition, navigation, navigation timeout, or DOM evaluation),
`analyzePerformance` returns exactly the profile `analyzeStatic` alone
would have produced for that URL. -/
theorem dynamic_failure_falls_back_to_static
    (url : String) (dw : DynWorld) (sw : StatWorld)
    (f : DynFailure) (p : PerformanceProfile)
    (hv : validateUrl url = true)
    (hd : dw.outcome = .error f)
    (hs : analyzeStatic sw = .ok p) :
    (analyzePerformance url dw sw).1 = .ok p := by
  simp [analyzePerformance, hv, analyzeDynamic, hd, hs]

/-- Witness for C2: a navigation timeout with a concrete static fetch. -/
theorem dynamic_failure_falls_back_to_static_witness :
    (analyzePerformance "https://example.com" ⟨.error .navigationTimeout⟩
        ⟨.ok ⟨[.scriptSrc "https://example.com/a.js"], 80, false⟩⟩).1
      = .ok (staticProfile ⟨[.scriptSrc "https://example.com/a.js"], 80, false⟩) :=
  dynamic_failure_falls_back_to_static "https://example.com"
    ⟨.error .navigationTimeout⟩
    ⟨.ok ⟨[.scriptSrc "https://example.com/a.js"], 80, false⟩⟩
    .navigationTimeout _ (by decide) rfl rfl

/-- C3: for every valid URL, `analyzePerformance` returns a profile whose
eleven fields (`ttfb_ms`, `resource_count`, `gzip_enabled`,
`lazy_loaded_images`, `resource_types`, `scripts_count`, `images_count`,
`stylesheets_count`, `fonts_count`, `fetch_requests_count`,
`total_requests`) are all present by the shape of `PerformanceProfile`,
with every numeric field — including every `resource_types` bucket —
non-negative, whichever path produced it. -/
theorem profile_full_shape_nonneg
    (url : String) (dw : DynWorld) (sw : StatWorld)
    (hv : validateUrl url = true) :
    ∃ p : PerformanceProfile, (analyzePerformance url dw sw).1 = .ok p
      ∧ 0 ≤ p.ttfb_ms ∧ 0 ≤ p.resource_count
      ∧ (p.gzip_enabled = true ∨ p.gzip_enabled = false)
      ∧ (p.lazy_loaded_images = true ∨ p.lazy_loaded_images = false)
      ∧ 0 ≤ p.scripts_count ∧ 0 ≤ p.images_count ∧ 0 ≤ p.stylesheets_count
      ∧ 0 ≤ p.fonts_count ∧ 0 ≤ p.fetch_requests_count
      ∧ 0 ≤ p.total_requests
      ∧ 0 ≤ p.resource_types.script ∧ 0 ≤ p.resource_types.image
      ∧ 0 ≤ p.resource_types.stylesheet ∧ 0 ≤ p.resource_types.font
      ∧ 0 ≤ p.resource_types.fetchXhr ∧ 0 ≤ p.resource_types.other := by
  obtain ⟨p, hp⟩ := analyzePerformance_returns url dw sw hv
  exact ⟨p, hp, Nat.zero_le _, Nat.zero_le _,
    (by cases p.gzip_enabled <;> simp),
    (by cases p.lazy_loaded_images <;> simp),
    Nat.zero_le _, Nat.zero_le _, Nat.zero_le _, Nat.zero_le _,
    Nat.zero_le _, Nat.zero_le _, Nat.zero_le _, Nat.zero_le _,
    Nat.zero_le _, Nat.zero_le _, Nat.zero_le _, Nat.zero_le _⟩

/-- Witness for C3 at a concrete URL and worlds. -/
theorem profile_full_shape_nonneg_witness :
    ∃ p : PerformanceProfile,
      (analyzePerformance "https://example.com"
          ⟨.error .poolAcquisition⟩ ⟨.error .connectionError⟩).1 = .ok p
        ∧ 0 ≤ p.ttfb_ms ∧ 0 ≤ p.resource_count
        ∧ (p.gzip_enabled = true ∨ p.gzip_enabled = false)
        ∧ (p.lazy_loaded_images = true ∨ p.lazy_loaded_images = false)
        ∧ 0 ≤ p.scripts_count ∧ 0 ≤ p.images_count ∧ 0 ≤ p.stylesheets_count
        ∧ 0 ≤ p.fonts_count ∧ 0 ≤ p.fetch_requests_count
        ∧ 0 ≤ p.total_requests
        ∧ 0 ≤ p.resource_types.script ∧ 0 ≤ p.resource_types.image
        ∧ 0 ≤ p.resource_types.stylesheet ∧ 0 ≤ p.resource_types.font
        ∧ 0 ≤ p.resource_types.fetchXhr ∧ 0 ≤ p.resource_types.other :=
  profile_full_shape_nonneg "https://example.com"
    ⟨.error .poolAcquisition⟩ ⟨.error .connectionError⟩ (by decide)

/-- C4: every profile `analyzePerformance` returns satisfies
`resource_count` = sum of the `resource_types` buckets, and a request
classified navigation/document contributes nothing to that tally (both the
§8 "always equals the sum" and the §3 "minus navigation/document"
formulations hold of the same result). -/
theorem resource_count_eq_type_sum
    (url : String) (dw : DynWorld) (sw : StatWorld) (p : PerformanceProfile)
    (hv : validateUrl url = true)
    (hp : (analyzePerformance url dw sw).1 = .ok p) :
    p.resource_count = p.resource_types.total
      ∧ ∀ ts : List ResourceType,
          tally (ResourceType.document :: ts) = tally ts := by
  refine ⟨?_, fun ts => rfl⟩
  cases hdo : dw.outcome with
  | ok obs =>
      have hpe : dynProfile obs = p := by
        simpa [analyzePerformance, hv, analyzeDynamic, hdo] using hp
      rw [← hpe]
      exact dynProfile_count_sum obs
  | error f =>
      cases hso : sw.outcome with
      | ok fetch =>
          have hpe : staticProfile fetch = p := by
            simpa [analyzePerformance, hv, analyzeDynamic, hdo,
              analyzeStatic, hso] using hp
          rw [← hpe]
          exact staticProfile_count_sum fetch
      | error g =>
          have hpe : defaultProfile = p := by
            simpa [analyzePerformance, hv, analyzeDynamic, hdo,
              analyzeStatic, hso] using hp
          rw [← hpe]
          rfl

/-- Witness for C4 at a concrete dynamic observation. -/
theorem resource_count_eq_type_sum_witness :
    (dynProfile ⟨[⟨"document", "https://example.com"⟩,
        ⟨"script", "https://example.com/a.js"⟩], 90, true, false⟩).resource_count
      = (dynProfile ⟨[⟨"document", "https://example.com"⟩,
        ⟨"script", "https://example.com/a.js"⟩], 90, true,
        false⟩).resource_types.total :=
  (resource_count_eq_type_sum "https://example.com"
    ⟨.ok ⟨[⟨"document", "https://example.com"⟩,
      ⟨"script", "https://example.com/a.js"⟩], 90, true, false⟩⟩
    ⟨.error .timeout⟩ _ (by decide) (by rfl)).1

/-- C5: in the dynamic path, navigation/document requests are counted in
`total_requests` but never in `resource_count` (nor in the
`resource_types` buckets, whose sum equals `resource_count`), so
`total_requests` exceeds `resource_count` by exactly the number of
excluded navigation/document requests. -/
theorem dynamic_navigation_excluded
    (url : String) (dw : DynWorld) (sw : StatWorld) (obs : DynObservation)
    (hv : validateUrl url = true)
    (hd : dw.outcome = .ok obs) :
    (analyzePerformance url dw sw).1 = .ok (dynProfile obs)
      ∧ (dynProfile obs).total_requests
          = (dynProfile obs).resource_count
            + obs.requests.countP (fun r => isDocumentReq r)
      ∧ (dynProfile obs).resource_types.total
          = (dynProfile obs).resource_count := by
  refine ⟨by simp [analyzePerformance, hv, analyzeDynamic, hd], ?_,
    (dynProfile_count_sum obs).symm⟩
  have h := length_filter_add_countP obs.requests
  simp only [dynProfile, processDynamicRequests]
  omega

/-- Witness for C5: one navigation request plus two resources — the total
exceeds the resource count by exactly one. -/
theorem dynamic_navigation_excluded_witness :
    (dynProfile ⟨[⟨"document", "https://example.com"⟩,
        ⟨"script", "https://example.com/a.js"⟩,
        ⟨"fetch", "https://example.com/api"⟩], 90, true, false⟩).total_requests
      = (dynProfile ⟨[⟨"document", "https://example.com"⟩,
          ⟨"script", "https://example.com/a.js"⟩,
          ⟨"fetch", "https://example.com/api"⟩], 90, true,
          false⟩).resource_count
        + ([⟨"document", "https://example.com"⟩,
            ⟨"script", "https://example.com/a.js"⟩,
            ⟨"fetch", "https://example.com/api"⟩] :
              List CapturedRequest).countP (fun r => isDocumentReq r) :=
  (dynamic_navigation_excluded "https://example.com"
    ⟨.ok ⟨[⟨"document", "https://example.com"⟩,
      ⟨"script", "https://example.com/a.js"⟩,
      ⟨"fetch", "https://example.com/api"⟩], 90, true, false⟩⟩
    ⟨.error .timeout⟩ _ (by decide) rfl).2.1

/-- C6: whenever the static path succeeds, the profile it produces has
`fetch_requests_count` equal to 0 — the static parse can never observe
script-initiated fetch/XHR calls. -/
theorem static_fetch_requests_zero
    (sw : StatWorld) (p : PerformanceProfile)
    (hs : analyzeStatic sw = .ok p) :
    p.fetch_requests_count = 0 := by
  cases h : sw.outcome with
  | error g => simp [analyzeStatic, h] at hs
  | ok f =>
      have hpe : staticProfile f = p := by simpa [analyzeStatic, h] using hs
      rw [← hpe]
      simpa [staticProfile, staticCounts] using static_tags_no_fetch f.tags

/-- Witness for C6 on a concrete static fetch with several resources. -/
theorem static_fetch_requests_zero_witness :
    (staticProfile ⟨[.scriptSrc "a.js", .linkStylesheet "s.css",
        .img "i.png" true, .linkFont "f.woff2"], 80,
        true⟩).fetch_requests_count = 0 :=
  static_fetch_requests_zero
    ⟨.ok ⟨[.scriptSrc "a.js", .linkStylesheet "s.css",
      .img "i.png" true, .linkFont "f.woff2"], 80, true⟩⟩ _ rfl

/-- C7: `classify` is a total pure function — for every input it returns a
`ResourceType` (by its type, without raising), any two calls on the same
input agree, and any captured request whose declared kind is unrecognized
classifies as `other`. -/
theorem classify_total_pure
    (x : ClassifierInput) (r : CapturedRequest) :
    classify x = classify x
      ∧ (r.declaredType ∉ recognizedKinds →
          classify (.request r) = .other) := by
  refine ⟨rfl, fun h => ?_⟩
  simp only [recognizedKinds, List.mem_cons, List.not_mem_nil, or_false,
    not_or] at h
  obtain ⟨h1, h2, h3, h4, h5, h6, h7⟩ := h
  simp [classify, h1, h2, h3, h4, h5, h6, h7]

/-- Witness for C7: an unrecognized declared kind classifies as `other`. -/
theorem classify_total_pure_witness :
    classify (.request ⟨"websocket", "wss://example.com/live"⟩)
      = ResourceType.other :=
  (classify_total_pure (.request ⟨"websocket", "wss://example.com/live"⟩)
    ⟨"websocket", "wss://example.com/live"⟩).2 (by decide)

/-- C8: `analyzePerformance` raises only for invalid input URLs (malformed
or non-HTTP(S) scheme); when it rejects such a URL the rejection happens
before any I/O — its trace records no pool acquisition and no HTTP GET —
and for every valid URL it returns a profile instead of raising. -/
theorem validation_rejects_before_io
    (url : String) (dw : DynWorld) (sw : StatWorld) :
    (validateUrl url = false →
        analyzePerformance url dw sw
            = (.error .validationError, ([] : List TraceEvent))
          ∧ TraceEvent.poolAcquire ∉ (analyzePerformance url dw sw).2
          ∧ TraceEvent.httpGet ∉ (analyzePerformance url dw sw).2)
      ∧ (validateUrl url = true →
          ∃ p : PerformanceProfile,
            (analyzePerformance url dw sw).1 = .ok p) := by
  constructor
  · intro h
    refine ⟨by simp [analyzePerformance, h], ?_, ?_⟩ <;>
      simp [analyzePerformance, h]
  · intro h
    exact analyzePerformance_returns url dw sw h

/-- Witness for C8: a `file://` URL is rejected with an empty I/O trace. -/
theorem validation_rejects_before_io_witness :
    analyzePerformance "file:///etc/passwd"
        ⟨.error .poolAcquisition⟩ ⟨.error .timeout⟩
      = (.error .validationError, ([] : List TraceEvent)) :=
  ((validation_rejects_before_io "file:///etc/passwd"
    ⟨.error .poolAcquisition⟩ ⟨.error .timeout⟩).1 (by decide)).1

/-- A dynamic observation whose observer captured requests of each
pool-blocked declared kind (image, font, stylesheet) next to the
navigation request — the situation the repository's own documented dynamic
example reports (images 4, fonts 2 in PROJECT_SUMMARY). -/
def blockedKindsObservation : DynObservation :=
  { requests := [⟨"document", "https://example.com"⟩,
      ⟨"image", "https://example.com/a.png"⟩,
      ⟨"font", "https://example.com/f.woff2"⟩,
      ⟨"stylesheet", "https://example.com/s.css"⟩]
    ttfbMs := 120
    gzip := true
    lazyDetected := false }

/-- C9 counterexample: a dynamic run whose observer captures an image, a
font and a stylesheet request produces a profile with `images_count`,
`fonts_count` and `stylesheets_count` all 1, not 0 — observed requests of
the pool-blocked kinds are counted, refuting the claim that those counts
are forced to zero. -/
theorem blocked_kinds_zero_counterexample :
    validateUrl "https://example.com" = true
      ∧ (analyzePerformance "https://example.com"
            ⟨.ok blockedKindsObservation⟩ ⟨.error .timeout⟩).1
          = .ok (dynProfile blockedKindsObservation)
      ∧ ¬ ((dynProfile blockedKindsObservation).images_count = 0
            ∧ (dynProfile blockedKindsObservation).fonts_count = 0
            ∧ (dynProfile blockedKindsObservation).stylesheets_count = 0) :=
  ⟨by decide, by rfl, by decide⟩

/-- C9 (amended): the dynamic path's network observer classifies and
counts every request it captures, whatever its declared kind — the
profile's `images_count`, `fonts_count` and `stylesheets_count` equal the
number of captured requests of those kinds, so the pool's
`BLOCK_RESOURCE_TYPES` configuration does not force them to zero (the
repository's documented dynamic results indeed report nonzero image and
font counts). -/
theorem dynamic_counts_captured_blocked_kinds (obs : DynObservation) :
    (dynProfile obs).images_count
        = (obs.requests.map (fun r => classify (.request r))).count
            ResourceType.image
      ∧ (dynProfile obs).fonts_count
        = (obs.requests.map (fun r => classify (.request r))).count
            ResourceType.font
      ∧ (dynProfile obs).stylesheets_count
        = (obs.requests.map (fun r => classify (.request r))).count
            ResourceType.stylesheet := by
  refine ⟨?_, ?_, ?_⟩
  · rw [← count_classify_filter_ne_doc obs.requests ResourceType.image
      (by simp)]
    simp [dynProfile, processDynamicRequests, tally_image]
  · rw [← count_classify_filter_ne_doc obs.requests ResourceType.font
      (by simp)]
    simp [dynProfile, processDynamicRequests, tally_font]
  · rw [← count_classify_filter_ne_doc obs.requests ResourceType.stylesheet
      (by simp)]
    simp [dynProfile, processDynamicRequests, tally_stylesheet]

/-- C10: the frontend's `isValidUrl` returns true for exactly the strings
the WHATWG `URL` constructor accepts — including non-HTTP(S) schemes such
as `file://` — returns false exactly when the constructor throws, and
`validateForm` imposes no scheme or host restriction beyond it before the
URL is submitted. -/
theorem isValidUrl_matches_url_constructor :
    (∀ s : String, isValidUrl s = urlConstructorAccepts s)
      ∧ isValidUrl "file:///etc/passwd" = true
      ∧ isValidUrl "mailto:user@example.com" = true
      ∧ isValidUrl "https://example.com" = true
      ∧ isValidUrl "not a url" = false
      ∧ (∀ s : String, isValidUrl s = true → urlFieldError s = none) := by
  refine ⟨fun s => ?_, by decide, by decide, by decide, by decide,
    fun s h => ?_⟩
  · cases hc : urlConstructorAccepts s <;> simp [isValidUrl, hc]
  · rcases eq_or_ne s "" with rfl | hne
    · exact absurd h (by decide)
    · simp [urlFieldError, hne, h]

/-- Witness for C10: a `file://` URL passes the whole form-level URL
check. -/
theorem isValidUrl_matches_url_constructor_witness :
    urlFieldError "file:///etc/passwd" = none :=
  isValidUrl_matches_url_constructor.2.2.2.2.2 "file:///etc/passwd"
    (by decide)

end USEOAI
